import Mathlib

/-
Verification of the dvag-helper CLI (a commit-message / PR-description
generator written in Go). The repository contains two near-duplicate
standalone programs:

  * the two-provider program (source file `part_000`), supporting an
    OpenAI-style chat-completion provider and a Google Gemini
    generate-content provider, selected through `ProviderEnumFromString`;
  * the single-provider program (`gptc/commit-msg-helper.go`), supporting
    only the OpenAI-style provider.

The definitions below are a shallow embedding of the pure decision logic
of both programs: prompt templates and prompt building, the diff reader's
branching between piped input and the `git diff --staged` fallback,
provider-name resolution, provider construction, flag/mode resolution,
and the response-handling code of both HTTP clients.  Effects (stdin,
subprocess output, HTTP status / decoded JSON bodies, environment
variables) are passed in as explicit parameters.
-/

set_option maxRecDepth 2048

namespace DvagHelper

/-- Go constant `defaultGPTModel = "o4-mini"` (both programs). -/
def defaultGPTModel : String := "o4-mini"

/-- Go constant `defaultGeminiModel = "gemini-2.5-pro-exp-03-25"` (two-provider program). -/
def defaultGeminiModel : String := "gemini-2.5-pro-exp-03-25"

/-- Mode constant `ModeCommit = "commit"` (Go `Mode` is a string type). -/
def ModeCommit : String := "commit"

/-- Mode constant `ModePR = "pr"`. -/
def ModePR : String := "pr"

/-- Everything of `commitPromptTemplate` before the trailing `%s` verb.
`fmt.Sprintf(commitPromptTemplate, diff)` is `commitPromptHead ++ diff`
because `%s` is the last thing in the template. Identical in both programs. -/
def commitPromptHead : String :=
  "Do not use ```.\n Create a CONVENTIONAL commit message for this git diff with the structure: <type>[optional scope]: <description>\nIgnore formatting and whitespace changes and focus on the big picture.\n"

/-- Everything of `prPromptTemplate` before the trailing `%s` verb.
Identical in both programs. -/
def prPromptHead : String :=
  "Do not use ```.\nCreate a pull request description for these changes.\nInclude: 1) A clear title, 2) What changes were made, 3) Why these changes were necessary,\nand 4) Any testing considerations.\nIgnore formatting and whitespace changes and focus on the big picture.\nWrite the description in GERMAN!!!\nFormat with markdown:\n"

/-- The prompt-building switch at the start of `generateMessage` (identical in
both programs): `commit` and `pr` substitute the diff into the corresponding
template, any other mode is the error `invalid mode: <mode>`. -/
def buildPrompt (mode : String) (gitDiff : String) : Except String String :=
  if mode = ModeCommit then Except.ok (commitPromptHead ++ gitDiff)
  else if mode = ModePR then Except.ok (prPromptHead ++ gitDiff)
  else Except.error ("invalid mode: " ++ mode)

/-- The whitespace predicate of Go `unicode.IsSpace` restricted to Latin-1
(space, tab, newline, vertical tab, form feed, carriage return, NEL,
no-break space); code points with the White_Space property above U+00FF
are not modelled, no claim depends on them. -/
def goIsSpace (c : Char) : Bool :=
  c = ' ' || c = '\t' || c = '\n' || c = '\x0b' || c = '\x0c' || c = '\r' ||
  c = '\u0085' || c = '\u00A0'

/-- Go `strings.TrimSpace`: drop leading and trailing whitespace. -/
def trimSpace (s : String) : String :=
  String.mk (((s.data.dropWhile goIsSpace).reverse.dropWhile goIsSpace).reverse)

/-- State of standard input as observed by `getGitDiff`:
either stdin is a terminal (no pipe), or reading the pipe failed with an
error, or the pipe was read completely yielding a string. -/
inductive StdinState where
  | notPiped : StdinState
  | readFailed : String → StdinState
  | piped : String → StdinState

/-- The `git diff --staged` fallback tail of `getGitDiff` (identical in both
programs).  The parameter is the outcome of running the subprocess:
`Except.error e` models `cmd.Run()` failing, `Except.ok out` models captured
standard output.  Empty trimmed output is the `no staged changes found`
error. -/
def runGitFallback (git : Except String String) : Except String String :=
  match git with
  | Except.error e => Except.error ("failed to get git diff: " ++ e)
  | Except.ok out =>
      let diff := trimSpace out
      if diff = "" then Except.error "no staged changes found"
      else Except.ok diff

/-- `getGitDiff` (identical in both programs): when stdin is piped, read it;
a read failure is an error; non-empty trimmed piped input is returned
directly; otherwise (empty trimmed pipe, or no pipe) fall through to the
`git diff --staged` subprocess. -/
def getGitDiff (stdin : StdinState) (git : Except String String) :
    Except String String :=
  match stdin with
  | StdinState.readFailed e => Except.error ("failed to read from stdin: " ++ e)
  | StdinState.piped s =>
      let diff := trimSpace s
      if diff ≠ "" then Except.ok diff
      else runGitFallback git
  | StdinState.notPiped => runGitFallback git

/-- The mode-resolution block of `parseFlags` (identical in both programs).
Returns the resolved mode and whether the both-flags warning was printed:
`--pr` together with `--cm` means commit mode plus a warning, `--pr` alone
means PR mode, anything else means commit mode. -/
def parseFlagsMode (commitFlag prFlag : Bool) : String × Bool :=
  if prFlag && commitFlag then (ModeCommit, true)
  else if prFlag then (ModePR, false)
  else (ModeCommit, false)

/-- Substring occurrence: `sub` occurs contiguously inside `s`. -/
def strContains (s sub : String) : Prop :=
  ∃ a b : String, s = a ++ sub ++ b

theorem strContains_appendR (h t sub : String) (hc : strContains h sub) :
    strContains (h ++ t) sub := by
  obtain ⟨a, b, rfl⟩ := hc
  exact ⟨a, b ++ t, by simp [String.append_assoc]⟩

theorem strContains_appendL (h t sub : String) (hc : strContains t sub) :
    strContains (h ++ t) sub := by
  obtain ⟨a, b, rfl⟩ := hc
  exact ⟨h ++ a, b, by simp [String.append_assoc]⟩

theorem strContains_self (s : String) : strContains s s :=
  ⟨"", "", by simp⟩

/-- The inner message object of one element of `OpenAIResponseBody.Choices`. -/
structure OpenAIChoiceMessage where
  content : String
  deriving DecidableEq

/-- One element of the `choices` array of the chat-completion response. -/
structure OpenAIChoice where
  message : OpenAIChoiceMessage
  deriving DecidableEq

/-- `OpenAIResponseBody`: the decoded chat-completion response
(identical in both programs). -/
structure OpenAIResponseBody where
  choices : List OpenAIChoice
  deriving DecidableEq

/-- The response-handling tail of `OpenAIProvider.GenerateMessage`
(identical in both programs).  `statusCode` is the HTTP status of the
response, available to the code but never read.  `decoded` is the outcome
of `json.NewDecoder(resp.Body).Decode`: a decode failure is wrapped; an
empty `choices` list is the `no choices in API response` error; otherwise
the first choice's message content is returned. -/
def openAIHandleResponse (statusCode : Nat)
    (decoded : Except String OpenAIResponseBody) : Except String String :=
  match statusCode, decoded with
  | _, Except.error e => Except.error ("failed to decode response: " ++ e)
  | _, Except.ok response =>
      match response.choices with
      | [] => Except.error "no choices in API response"
      | choice :: _ => Except.ok choice.message.content

/-- `GeminiPart`: one text part. -/
structure GeminiPart where
  text : String
  deriving DecidableEq

/-- `GeminiContent`: a list of parts. -/
structure GeminiContent where
  parts : List GeminiPart
  deriving DecidableEq

/-- `GeminiSafetyRating` (decoded but never inspected by the client). -/
structure GeminiSafetyRating where
  category : String
  probability : String
  deriving DecidableEq

/-- `GeminiCandidate`: content is a nullable pointer in Go, so an `Option`. -/
structure GeminiCandidate where
  content : Option GeminiContent
  finishReason : String
  safetyRatings : List GeminiSafetyRating
  deriving DecidableEq

/-- `GeminiPromptFeedback`. -/
structure GeminiPromptFeedback where
  blockReason : String
  safetyRatings : List GeminiSafetyRating
  deriving DecidableEq

/-- `GeminiResponseBody`: `promptFeedback` is a nullable pointer in Go. -/
structure GeminiResponseBody where
  candidates : List GeminiCandidate
  promptFeedback : Option GeminiPromptFeedback
  deriving DecidableEq

/-- The error object the Gemini client tries to decode from a non-2xx body. -/
structure GeminiAPIError where
  code : Int
  message : String
  status : String
  deriving DecidableEq

/-- The non-2xx branch of `GoogleGeminiProvider.GenerateMessage`.
`parsedErr` is the outcome of `json.Unmarshal(bodyBytes, &errorResponse)`
(`none` when unmarshalling fails).  The function returns the message of
the error value produced by the Go code: the structured
`gemini API error (<code> <status>): <message>` when an error object with
a non-empty message was decoded, otherwise the generic
`gemini API request failed with status <status>: <body>`. -/
def geminiHandleHTTPError (statusCode : Nat) (bodyStr : String)
    (parsedErr : Option GeminiAPIError) : String :=
  match parsedErr with
  | some e =>
      if e.message ≠ "" then
        "gemini API error (" ++ toString e.code ++ " " ++ e.status ++ "): " ++
          e.message
      else
        "gemini API request failed with status " ++ toString statusCode ++
          ": " ++ bodyStr
  | none =>
      "gemini API request failed with status " ++ toString statusCode ++
        ": " ++ bodyStr

/-- The candidate checks of `GoogleGeminiProvider.GenerateMessage` after the
prompt-feedback check: no candidates is an error (quoting the raw body);
a first candidate whose finish reason is neither `STOP` nor `MAX_TOKENS`
is an error naming that reason; a first candidate with a nil content or an
empty parts list is an error; otherwise the texts of all parts of the
first candidate are concatenated in order (the `strings.Builder` loop). -/
def geminiCheckCandidates (bodyStr : String)
    (candidates : List GeminiCandidate) : Except String String :=
  match candidates with
  | [] => Except.error ("no candidates in gemini API response. Body: " ++ bodyStr)
  | candidate :: _ =>
      if candidate.finishReason ≠ "STOP" ∧ candidate.finishReason ≠ "MAX_TOKENS" then
        Except.error ("gemini generation finished due to " ++ candidate.finishReason)
      else
        match candidate.content with
        | none =>
            Except.error ("gemini response candidate has no content parts. FinishReason: "
              ++ candidate.finishReason)
        | some content =>
            if content.parts = [] then
              Except.error ("gemini response candidate has no content parts. FinishReason: "
                ++ candidate.finishReason)
            else
              Except.ok (String.join (content.parts.map GeminiPart.text))

/-- The 2xx branch of `GoogleGeminiProvider.GenerateMessage` on a
successfully decoded body: a present prompt feedback with a non-empty
block reason is the `gemini prompt blocked due to <reason>` error,
otherwise control falls through to the candidate checks. -/
def geminiHandleSuccess (bodyStr : String) (r : GeminiResponseBody) :
    Except String String :=
  match r.promptFeedback with
  | some pf =>
      if pf.blockReason ≠ "" then
        Except.error ("gemini prompt blocked due to " ++ pf.blockReason)
      else geminiCheckCandidates bodyStr r.candidates
  | none => geminiCheckCandidates bodyStr r.candidates

/-- `ProviderEnum` of the two-provider program. -/
inductive ProviderEnum where
  | openai : ProviderEnum
  | google : ProviderEnum
  deriving DecidableEq

/-- `ProviderEnumFromString` of the two-provider program.  The Bool records
whether the invalid-provider warning was written to stderr (the default
branch warns and returns the OpenAI enum value). -/
def ProviderEnumFromString (s : String) : ProviderEnum × Bool :=
  if s = "openai" then (ProviderEnum.openai, false)
  else if s = "google" then (ProviderEnum.google, false)
  else (ProviderEnum.openai, true)

/-- Fields of the `OpenAIProvider` struct of the two-provider program. -/
structure OpenAIProviderCfg where
  apiKey : String
  apiURL : String
  model : String
  deriving DecidableEq

/-- Fields of the `GoogleGeminiProvider` struct. -/
structure GoogleGeminiProviderCfg where
  apiKey : String
  baseURL : String
  model : String
  deriving DecidableEq

/-- A constructed provider of the two-provider program. -/
inductive ProviderB where
  | openai : OpenAIProviderCfg → ProviderB
  | google : GoogleGeminiProviderCfg → ProviderB
  deriving DecidableEq

/-- Outcome of `NewProvider`: a provider, or `log.Fatal` terminating the
process with a message. -/
inductive NewProviderResult where
  | ok : ProviderB → NewProviderResult
  | fatal : String → NewProviderResult
  deriving DecidableEq

/-- `NewProvider` of the two-provider program.  `openaiKey` and `geminiKey`
model `os.LookupEnv` of `OPENAI_API_KEY` and `GEMINI_API_KEY` (`none` when
unset).  A missing or empty key for the selected provider is fatal.  The
OpenAI model is the configured model unless it is empty; the Google model
is the configured model unless it is empty or equal to `defaultGPTModel`,
in which case `defaultGeminiModel` is used.  (The enum has only two values,
so the `default: log.Fatalf` arm of the Go switch is unreachable.) -/
def newProviderB (providerSel : ProviderEnum) (cfgModel : String)
    (openaiKey geminiKey : Option String) : NewProviderResult :=
  match providerSel with
  | ProviderEnum.openai =>
      match openaiKey with
      | none =>
          NewProviderResult.fatal
            "API key not set. Please set the OPENAI_API_KEY environment variable."
      | some key =>
          if key = "" then
            NewProviderResult.fatal
              "API key not set. Please set the OPENAI_API_KEY environment variable."
          else
            NewProviderResult.ok (ProviderB.openai
              ⟨key, "https://api.openai.com/v1/chat/completions",
                if cfgModel ≠ "" then cfgModel else defaultGPTModel⟩)
  | ProviderEnum.google =>
      match geminiKey with
      | none =>
          NewProviderResult.fatal
            "API key not set. Please set the GEMINI_API_KEY environment variable."
      | some key =>
          if key = "" then
            NewProviderResult.fatal
              "API key not set. Please set the GEMINI_API_KEY environment variable."
          else
            NewProviderResult.ok (ProviderB.google
              ⟨key, "https://generativelanguage.googleapis.com",
                if cfgModel ≠ "" ∧ cfgModel ≠ defaultGPTModel then cfgModel
                else defaultGeminiModel⟩)

/-- Fields of the `OpenAIProvider` struct of the single-provider program
(`gptc/commit-msg-helper.go`); it carries no model field. -/
structure GptcOpenAIProviderCfg where
  apiKey : String
  apiURL : String
  deriving DecidableEq

/-- Outcome of `NewProvider` of the single-provider program: a provider,
`log.Fatal`, or an ordinary returned error (the `unsupported provider`
default arm). -/
inductive GptcNewProviderResult where
  | ok : GptcOpenAIProviderCfg → GptcNewProviderResult
  | fatal : String → GptcNewProviderResult
  | err : String → GptcNewProviderResult
  deriving DecidableEq

/-- `NewProvider` of the single-provider program: only the literal string
`openai` is recognized; any other provider name returns the
`unsupported provider: <name>` error, which `generateMessage` propagates
and `main` treats as fatal. -/
def gptcNewProvider (provider : String) (openaiKey : Option String) :
    GptcNewProviderResult :=
  if provider = "openai" then
    match openaiKey with
    | none =>
        GptcNewProviderResult.fatal
          "API key not set. Please set the OPENAI_API_KEY environment variable."
    | some key =>
        if key = "" then
          GptcNewProviderResult.fatal
            "API key not set. Please set the OPENAI_API_KEY environment variable."
        else
          GptcNewProviderResult.ok
            ⟨key, "https://api.openai.com/v1/chat/completions"⟩
  else GptcNewProviderResult.err ("unsupported provider: " ++ provider)

/-- Whether a `gptcNewProvider` outcome is a successfully constructed
provider. -/
def GptcNewProviderResult.isOk : GptcNewProviderResult → Bool
  | GptcNewProviderResult.ok _ => true
  | GptcNewProviderResult.fatal _ => false
  | GptcNewProviderResult.err _ => false

/-- Claim C3: for every piped stdin content whose trimmed form is non-empty,
`getGitDiff` returns exactly that trimmed string, for every outcome of the
`git diff --staged` subprocess (so the fallback is never consulted). -/
theorem getGitDiff_piped_nonempty (s : String) (git : Except String String)
    (h : trimSpace s ≠ "") :
    getGitDiff (StdinState.piped s) git = Except.ok (trimSpace s) := by
  simp [getGitDiff, h]

/-- Witness for C3 at piped input `" d "` with a failing git subprocess. -/
theorem getGitDiff_piped_nonempty_witness :
    getGitDiff (StdinState.piped " d ") (Except.error "boom") = Except.ok "d" := by
  have h := getGitDiff_piped_nonempty " d " (Except.error "boom") (by decide)
  have ht : trimSpace " d " = "d" := by decide
  rw [h, ht]

/-- Claim C4: whenever stdin is not piped or the piped input trims to empty,
`getGitDiff` equals the `git diff --staged` fallback on the subprocess
outcome; and when that subprocess succeeds with output trimming to empty,
the result is an error containing `no staged changes`. -/
theorem getGitDiff_fallback_spec (stdin : StdinState) (git : Except String String)
    (h : stdin = StdinState.notPiped ∨
      ∃ s, stdin = StdinState.piped s ∧ trimSpace s = "") :
    getGitDiff stdin git = runGitFallback git
  ∧ (∀ out, git = Except.ok out → trimSpace out = "" →
      ∃ msg, getGitDiff stdin git = Except.error msg
        ∧ strContains msg "no staged changes") := by
  have heq : getGitDiff stdin git = runGitFallback git := by
    rcases h with rfl | ⟨s, rfl, hs⟩
    · rfl
    · simp [getGitDiff, hs]
  refine ⟨heq, ?_⟩
  intro out hout hempty
  subst hout
  refine ⟨"no staged changes found", ?_, "", " found", by decide⟩
  rw [heq]
  simp [runGitFallback, hempty]

/-- Witness for C4: no pipe, subprocess succeeded with whitespace output. -/
theorem getGitDiff_fallback_spec_witness :
    getGitDiff StdinState.notPiped (Except.ok " ") = runGitFallback (Except.ok " ")
  ∧ ∃ msg, getGitDiff StdinState.notPiped (Except.ok " ") = Except.error msg
      ∧ strContains msg "no staged changes" := by
  have h := getGitDiff_fallback_spec StdinState.notPiped (Except.ok " ") (Or.inl rfl)
  exact ⟨h.1, h.2 " " rfl (by decide)⟩

/-- Claim C6: mode resolution over all four flag combinations: both flags set
gives commit mode with the warning; only `--pr` gives PR mode; neither flag
or only `--cm` gives commit mode without a warning. -/
theorem parseFlagsMode_cases :
    parseFlagsMode true true = (ModeCommit, true)
  ∧ parseFlagsMode false true = (ModePR, false)
  ∧ parseFlagsMode false false = (ModeCommit, false)
  ∧ parseFlagsMode true false = (ModeCommit, false) :=
  ⟨rfl, rfl, rfl, rfl⟩

/-- Claim C7: the chat-completion client on a successfully decoded body:
an empty `choices` list is exactly the error `no choices in API response`,
and a non-empty list returns the first choice's message content unchanged. -/
theorem openAIResponse_cases (statusCode : Nat) (r : OpenAIResponseBody) :
    (r.choices = [] →
      openAIHandleResponse statusCode (Except.ok r) =
        Except.error "no choices in API response")
  ∧ (∀ choice rest, r.choices = choice :: rest →
      openAIHandleResponse statusCode (Except.ok r) =
        Except.ok choice.message.content) := by
  constructor
  · intro h
    simp [openAIHandleResponse, h]
  · intro choice rest h
    simp [openAIHandleResponse, h]

/-- Witness for C7 at an empty and a one-element choices list. -/
theorem openAIResponse_cases_witness :
    openAIHandleResponse 200 (Except.ok ⟨[]⟩) =
      Except.error "no choices in API response"
  ∧ openAIHandleResponse 200 (Except.ok ⟨[⟨⟨"hi"⟩⟩]⟩) = Except.ok "hi" :=
  ⟨(openAIResponse_cases 200 ⟨[]⟩).1 rfl,
   (openAIResponse_cases 200 ⟨[⟨⟨"hi"⟩⟩]⟩).2 ⟨⟨"hi"⟩⟩ [] rfl⟩

/-- Claim C10: the chat-completion client never inspects the HTTP status:
its result is the same for any two status codes, an empty decoded choices
list is the `no choices in API response` error at every status, and a
non-empty one returns the first content at every status. -/
theorem openAIStatusIndependent :
    (∀ (s1 s2 : Nat) (d : Except String OpenAIResponseBody),
      openAIHandleResponse s1 d = openAIHandleResponse s2 d)
  ∧ (∀ (s : Nat) (r : OpenAIResponseBody), r.choices = [] →
      openAIHandleResponse s (Except.ok r) =
        Except.error "no choices in API response")
  ∧ (∀ (s : Nat) (r : OpenAIResponseBody) (choice : OpenAIChoice)
      (rest : List OpenAIChoice), r.choices = choice :: rest →
      openAIHandleResponse s (Except.ok r) = Except.ok choice.message.content) := by
  refine ⟨fun s1 s2 d => by cases d <;> rfl, ?_, ?_⟩
  · intro s r h
    simp [openAIHandleResponse, h]
  · intro s r choice rest h
    simp [openAIHandleResponse, h]

/-- Witness for C10: statuses 200 and 503 agree on an error body decoding
to no choices, and a choice survives a 503 status. -/
theorem openAIStatusIndependent_witness :
    openAIHandleResponse 200 (Except.ok ⟨[]⟩) =
      openAIHandleResponse 503 (Except.ok ⟨[]⟩)
  ∧ openAIHandleResponse 503 (Except.ok ⟨[]⟩) =
      Except.error "no choices in API response"
  ∧ openAIHandleResponse 503 (Except.ok ⟨[⟨⟨"hi"⟩⟩]⟩) = Except.ok "hi" :=
  ⟨openAIStatusIndependent.1 200 503 (Except.ok ⟨[]⟩),
   openAIStatusIndependent.2.1 503 ⟨[]⟩ rfl,
   openAIStatusIndependent.2.2 503 ⟨[⟨⟨"hi"⟩⟩]⟩ ⟨⟨"hi"⟩⟩ [] rfl⟩

/-- Claim C9: in the two-provider program, for a non-empty Gemini API key,
the Google provider uses the configured model only when it is non-empty and
different from `o4-mini`; a configured model that is empty or equal to
`o4-mini` (the flag's default) is silently replaced by
`gemini-2.5-pro-exp-03-25`. -/
theorem newProviderB_google_model (m key : String) (okey : Option String)
    (hk : key ≠ "") :
    ((m ≠ "" ∧ m ≠ defaultGPTModel) →
      newProviderB ProviderEnum.google m okey (some key) =
        NewProviderResult.ok (ProviderB.google
          ⟨key, "https://generativelanguage.googleapis.com", m⟩))
  ∧ ((m = "" ∨ m = defaultGPTModel) →
      newProviderB ProviderEnum.google m okey (some key) =
        NewProviderResult.ok (ProviderB.google
          ⟨key, "https://generativelanguage.googleapis.com", defaultGeminiModel⟩)) := by
  constructor
  · intro hm
    simp [newProviderB, hk, hm]
  · intro hm
    have hnot : ¬(m ≠ "" ∧ m ≠ defaultGPTModel) := by
      rcases hm with rfl | rfl <;> simp
    simp [newProviderB, hk, hnot]

/-- Witness for C9 at the flag default model `o4-mini`. -/
theorem newProviderB_google_model_witness :
    newProviderB ProviderEnum.google "o4-mini" none (some "k") =
      NewProviderResult.ok (ProviderB.google
        ⟨"k", "https://generativelanguage.googleapis.com", defaultGeminiModel⟩) :=
  (newProviderB_google_model "o4-mini" "k" none (by decide)).2 (Or.inr rfl)

/-- Claim C2 counterexample: in the single-provider program, the
unrecognized provider name `foo` does not fall back to a default provider;
`NewProvider` returns the `unsupported provider` error, which the caller
turns into a fatal run failure. -/
theorem gptcUnknownProvider_fails :
    gptcNewProvider "foo" (some "k") =
      GptcNewProviderResult.err "unsupported provider: foo"
  ∧ (gptcNewProvider "foo" (some "k")).isOk = false := by
  decide

/-- Claim C2 amended: in the two-provider program, every unrecognized
provider name resolves to the OpenAI enum value with a warning (the run
does not fail because of the name); in the single-provider program, every
provider name other than `openai` makes `NewProvider` return the
`unsupported provider` error and the run fails. -/
theorem providerFallback_amended (s : String) (h1 : s ≠ "openai")
    (h2 : s ≠ "google") :
    ProviderEnumFromString s = (ProviderEnum.openai, true)
  ∧ ∀ k : Option String, gptcNewProvider s k =
      GptcNewProviderResult.err ("unsupported provider: " ++ s) := by
  constructor
  · simp [ProviderEnumFromString, h1, h2]
  · intro k
    simp [gptcNewProvider, h1]

/-- Witness for the amended C2 at the provider name `foo`. -/
theorem providerFallback_amended_witness :
    ProviderEnumFromString "foo" = (ProviderEnum.openai, true)
  ∧ gptcNewProvider "foo" none =
      GptcNewProviderResult.err "unsupported provider: foo" := by
  have h := providerFallback_amended "foo" (by decide) (by decide)
  refine ⟨h.1, ?_⟩
  rw [h.2 none]
  decide

/-- Claim C5: commit mode builds exactly the commit template with the diff
substituted (containing the code-fence prohibition and the literal diff);
PR mode builds exactly the PR template with the diff substituted (mandating
German, markdown, and title/what/why/testing sections); every other mode is
an error mentioning `invalid mode`. -/
theorem buildPrompt_spec (mode gitDiff : String) :
    (mode = ModeCommit →
      buildPrompt mode gitDiff = Except.ok (commitPromptHead ++ gitDiff)
      ∧ strContains (commitPromptHead ++ gitDiff) "Do not use ```"
      ∧ strContains (commitPromptHead ++ gitDiff) gitDiff)
  ∧ (mode = ModePR →
      buildPrompt mode gitDiff = Except.ok (prPromptHead ++ gitDiff)
      ∧ strContains (prPromptHead ++ gitDiff) gitDiff
      ∧ strContains (prPromptHead ++ gitDiff) "GERMAN"
      ∧ strContains (prPromptHead ++ gitDiff) "markdown"
      ∧ strContains (prPromptHead ++ gitDiff) "Do not use ```"
      ∧ strContains (prPromptHead ++ gitDiff) "A clear title"
      ∧ strContains (prPromptHead ++ gitDiff) "What changes were made"
      ∧ strContains (prPromptHead ++ gitDiff) "Why these changes were necessary"
      ∧ strContains (prPromptHead ++ gitDiff) "testing considerations")
  ∧ (mode ≠ ModeCommit → mode ≠ ModePR →
      ∃ msg, buildPrompt mode gitDiff = Except.error msg
        ∧ strContains msg "invalid mode") := by
  refine ⟨?_, ?_, ?_⟩
  · intro hm
    subst hm
    refine ⟨rfl, ?_, ?_⟩
    · exact strContains_appendR _ _ _ ⟨"", ".\n Create a CONVENTIONAL commit message for this git diff with the structure: <type>[optional scope]: <description>\nIgnore formatting and whitespace changes and focus on the big picture.\n", by simp [commitPromptHead]⟩
    · exact strContains_appendL _ _ _ (strContains_self _)
  · intro hm
    subst hm
    refine ⟨by simp [buildPrompt, ModeCommit, ModePR], ?_, ?_, ?_, ?_, ?_, ?_, ?_, ?_⟩
    · exact strContains_appendL _ _ _ (strContains_self _)
    · exact strContains_appendR _ _ _
        ⟨"Do not use ```.\nCreate a pull request description for these changes.\nInclude: 1) A clear title, 2) What changes were made, 3) Why these changes were necessary,\nand 4) Any testing considerations.\nIgnore formatting and whitespace changes and focus on the big picture.\nWrite the description in ", "!!!\nFormat with markdown:\n", by simp [prPromptHead]⟩
    · exact strContains_appendR _ _ _
        ⟨"Do not use ```.\nCreate a pull request description for these changes.\nInclude: 1) A clear title, 2) What changes were made, 3) Why these changes were necessary,\nand 4) Any testing considerations.\nIgnore formatting and whitespace changes and focus on the big picture.\nWrite the description in GERMAN!!!\nFormat with ", ":\n", by simp [prPromptHead]⟩
    · exact strContains_appendR _ _ _ ⟨"", ".\nCreate a pull request description for these changes.\nInclude: 1) A clear title, 2) What changes were made, 3) Why these changes were necessary,\nand 4) Any testing considerations.\nIgnore formatting and whitespace changes and focus on the big picture.\nWrite the description in GERMAN!!!\nFormat with markdown:\n", by simp [prPromptHead]⟩
    · exact strContains_appendR _ _ _
        ⟨"Do not use ```.\nCreate a pull request description for these changes.\nInclude: 1) ", ", 2) What changes were made, 3) Why these changes were necessary,\nand 4) Any testing considerations.\nIgnore formatting and whitespace changes and focus on the big picture.\nWrite the description in GERMAN!!!\nFormat with markdown:\n", by simp [prPromptHead]⟩
    · exact strContains_appendR _ _ _
        ⟨"Do not use ```.\nCreate a pull request description for these changes.\nInclude: 1) A clear title, 2) ", ", 3) Why these changes were necessary,\nand 4) Any testing considerations.\nIgnore formatting and whitespace changes and focus on the big picture.\nWrite the description in GERMAN!!!\nFormat with markdown:\n", by simp [prPromptHead]⟩
    · exact strContains_appendR _ _ _
        ⟨"Do not use ```.\nCreate a pull request description for these changes.\nInclude: 1) A clear title, 2) What changes were made, 3) ", ",\nand 4) Any testing considerations.\nIgnore formatting and whitespace changes and focus on the big picture.\nWrite the description in GERMAN!!!\nFormat with markdown:\n", by simp [prPromptHead]⟩
    · exact strContains_appendR _ _ _
        ⟨"Do not use ```.\nCreate a pull request description for these changes.\nInclude: 1) A clear title, 2) What changes were made, 3) Why these changes were necessary,\nand 4) Any ", ".\nIgnore formatting and whitespace changes and focus on the big picture.\nWrite the description in GERMAN!!!\nFormat with markdown:\n", by simp [prPromptHead]⟩
  · intro h1 h2
    refine ⟨"invalid mode: " ++ mode, ?_, ?_⟩
    · simp [buildPrompt, h1, h2]
    · exact strContains_appendR _ _ _ ⟨"", ": ", by decide⟩

/-- Witness for C5 at modes `commit`, `pr` and the unknown mode `x`. -/
theorem buildPrompt_spec_witness :
    buildPrompt "commit" "DIFF" = Except.ok (commitPromptHead ++ "DIFF")
  ∧ buildPrompt "pr" "DIFF" = Except.ok (prPromptHead ++ "DIFF")
  ∧ ∃ msg, buildPrompt "x" "DIFF" = Except.error msg
      ∧ strContains msg "invalid mode" :=
  ⟨((buildPrompt_spec "commit" "DIFF").1 rfl).1,
   ((buildPrompt_spec "pr" "DIFF").2.1 rfl).1,
   (buildPrompt_spec "x" "DIFF").2.2 (by decide) (by decide)⟩

/-- Claim C8: the generate-content client on a non-2xx status: when the body
unmarshals to an error object with a non-empty message, the resulting error
surfaces that message; otherwise (unmarshal failure or empty message) the
result is the generic error carrying the raw status code and the raw body. -/
theorem geminiHTTPError_spec (statusCode : Nat) (bodyStr : String)
    (parsedErr : Option GeminiAPIError) :
    (∀ e, parsedErr = some e → e.message ≠ "" →
      strContains (geminiHandleHTTPError statusCode bodyStr parsedErr) e.message)
  ∧ ((∀ e, parsedErr = some e → e.message = "") →
      geminiHandleHTTPError statusCode bodyStr parsedErr =
        "gemini API request failed with status " ++ toString statusCode ++
          ": " ++ bodyStr
      ∧ strContains (geminiHandleHTTPError statusCode bodyStr parsedErr)
          (toString statusCode)
      ∧ strContains (geminiHandleHTTPError statusCode bodyStr parsedErr)
          bodyStr) := by
  constructor
  · intro e he hm
    subst he
    simp only [geminiHandleHTTPError, if_pos hm]
    exact strContains_appendL _ _ _ (strContains_self _)
  · intro hall
    have heq : geminiHandleHTTPError statusCode bodyStr parsedErr =
        "gemini API request failed with status " ++ toString statusCode ++
          ": " ++ bodyStr := by
      cases hp : parsedErr with
      | none => rfl
      | some e => simp [geminiHandleHTTPError, hall e hp]
    refine ⟨heq, ?_, ?_⟩
    · rw [heq]
      exact strContains_appendR _ _ _ (strContains_appendR _ _ _
        (strContains_appendL _ _ _ (strContains_self _)))
    · rw [heq]
      exact strContains_appendL _ _ _ (strContains_self _)

/-- Witness for C8: a decoded error object with message `bad` is surfaced;
an undecodable body falls back to the generic status-and-body error. -/
theorem geminiHTTPError_spec_witness :
    strContains (geminiHandleHTTPError 500 "oops" (some ⟨400, "bad", "INVALID"⟩))
      "bad"
  ∧ geminiHandleHTTPError 500 "oops" none =
      "gemini API request failed with status " ++ toString (500 : Nat) ++
        ": " ++ "oops" :=
  ⟨(geminiHTTPError_spec 500 "oops" (some ⟨400, "bad", "INVALID"⟩)).1
      ⟨400, "bad", "INVALID"⟩ rfl (by decide),
   ((geminiHTTPError_spec 500 "oops" none).2
      (fun e he => Option.noConfusion he)).1⟩

/-- Claim C1: the generate-content client on a successfully decoded 2xx body:
a non-empty prompt-feedback block reason is an error containing that reason;
otherwise an empty candidate list is an error containing `no candidates`;
otherwise a first candidate finishing for a reason other than `STOP` or
`MAX_TOKENS` is an error containing that reason; otherwise a first candidate
with nil content or no parts is an error; otherwise the result is the
in-order concatenation of all text parts of the first candidate. -/
theorem geminiSuccess_spec (bodyStr : String) (r : GeminiResponseBody) :
    (∀ pf, r.promptFeedback = some pf → pf.blockReason ≠ "" →
      ∃ msg, geminiHandleSuccess bodyStr r = Except.error msg
        ∧ strContains msg pf.blockReason)
  ∧ ((∀ pf, r.promptFeedback = some pf → pf.blockReason = "") →
      (r.candidates = [] →
        ∃ msg, geminiHandleSuccess bodyStr r = Except.error msg
          ∧ strContains msg "no candidates")
      ∧ (∀ cand rest, r.candidates = cand :: rest →
          ((cand.finishReason ≠ "STOP" ∧ cand.finishReason ≠ "MAX_TOKENS") →
            ∃ msg, geminiHandleSuccess bodyStr r = Except.error msg
              ∧ strContains msg cand.finishReason)
          ∧ ((cand.finishReason = "STOP" ∨ cand.finishReason = "MAX_TOKENS") →
              (cand.content = none →
                ∃ msg, geminiHandleSuccess bodyStr r = Except.error msg)
              ∧ (∀ content, cand.content = some content →
                  (content.parts = [] →
                    ∃ msg, geminiHandleSuccess bodyStr r = Except.error msg)
                  ∧ (content.parts ≠ [] →
                      geminiHandleSuccess bodyStr r =
                        Except.ok (String.join
                          (content.parts.map GeminiPart.text))))))) := by
  have hred : (∀ pf, r.promptFeedback = some pf → pf.blockReason = "") →
      geminiHandleSuccess bodyStr r = geminiCheckCandidates bodyStr r.candidates := by
    intro hpf
    cases hpf2 : r.promptFeedback with
    | none => simp [geminiHandleSuccess, hpf2]
    | some pf => simp [geminiHandleSuccess, hpf2, hpf pf hpf2]
  refine ⟨?_, ?_⟩
  · intro pf hpf hbr
    refine ⟨"gemini prompt blocked due to " ++ pf.blockReason, ?_, ?_⟩
    · simp [geminiHandleSuccess, hpf, hbr]
    · exact strContains_appendL _ _ _ (strContains_self _)
  · intro hpf
    refine ⟨?_, ?_⟩
    · intro hcand
      refine ⟨"no candidates in gemini API response. Body: " ++ bodyStr, ?_, ?_⟩
      · rw [hred hpf, hcand]
        rfl
      · exact strContains_appendR _ _ _
          ⟨"", " in gemini API response. Body: ", by decide⟩
    · intro cand rest hcand
      refine ⟨?_, ?_⟩
      · intro hfr
        refine ⟨"gemini generation finished due to " ++ cand.finishReason, ?_, ?_⟩
        · rw [hred hpf, hcand]
          simp [geminiCheckCandidates, hfr]
        · exact strContains_appendL _ _ _ (strContains_self _)
      · intro hok
        have hnfr : ¬(cand.finishReason ≠ "STOP" ∧
            cand.finishReason ≠ "MAX_TOKENS") := by
          rcases hok with h | h <;> simp [h]
        refine ⟨?_, ?_⟩
        · intro hcont
          refine ⟨"gemini response candidate has no content parts. FinishReason: "
              ++ cand.finishReason, ?_⟩
          rw [hred hpf, hcand]
          simp [geminiCheckCandidates, hnfr, hcont]
        · intro content hcont
          refine ⟨?_, ?_⟩
          · intro hparts
            refine ⟨"gemini response candidate has no content parts. FinishReason: "
                ++ cand.finishReason, ?_⟩
            rw [hred hpf, hcand]
            simp [geminiCheckCandidates, hnfr, hcont, hparts]
          · intro hparts
            rw [hred hpf, hcand]
            simp [geminiCheckCandidates, hnfr, hcont, hparts]

/-- Witness for C1: a clean `STOP` response with parts `hel` and `lo`
returns their in-order concatenation `hello`. -/
theorem geminiSuccess_spec_witness :
    geminiHandleSuccess "b"
      ⟨[⟨some ⟨[⟨"hel"⟩, ⟨"lo"⟩]⟩, "STOP", []⟩], none⟩ = Except.ok "hello" := by
  have h := ((((geminiSuccess_spec "b"
      ⟨[⟨some ⟨[⟨"hel"⟩, ⟨"lo"⟩]⟩, "STOP", []⟩], none⟩).2
      (fun pf hpf => Option.noConfusion hpf)).2
      ⟨some ⟨[⟨"hel"⟩, ⟨"lo"⟩]⟩, "STOP", []⟩ [] rfl).2
      (Or.inl rfl)).2 ⟨[⟨"hel"⟩, ⟨"lo"⟩]⟩ rfl
  have h2 := h.2 (by simp)
  rw [h2]
  rfl

end DvagHelper
